import Mathlib

/-!
Verification of the simulated AI Optimization Service HTTP server
(`run-ai-optimization-service` runner script): the `/health`, `/generate`
and `/stats` Express handlers, embedded shallowly over a model of
JavaScript JSON values.
-/

/-- JavaScript values as they occur in parsed JSON bodies and in the object
literals the handlers build.  `undefined` models the JavaScript undefined
value (it never occurs in a parsed JSON request body, but it does occur as
the value of an object property built from a missing request field, e.g.
`metadata.complexity` when the request carried no `complexity`). -/
inductive Json where
  | undefined
  | null
  | bool (b : Bool)
  | num (n : Int)
  | str (s : String)
  | arr (elems : List Json)
  | obj (fields : List (String × Json))

/-- Presence-aware field lookup in a JSON object: `none` when the key is
absent (or the value is not an object). -/
def Json.getField : Json → String → Option Json
  | .obj fs, k => fs.lookup k
  | _, _ => none

/-- JavaScript property access `j[k]`: a missing key (or a non-object base)
yields `undefined`. -/
def Json.prop (j : Json) (k : String) : Json :=
  (j.getField k).getD .undefined

/-- JavaScript truthiness of a value: `undefined`, `null`, `false`, `0` and
`""` are falsy; every array and object is truthy. -/
def Json.truthy : Json → Bool
  | .undefined => false
  | .null => false
  | .bool b => b
  | .num n => n != 0
  | .str s => s != ""
  | .arr _ => true
  | .obj _ => true

/-- `Array.isArray`. -/
def Json.isArray : Json → Bool
  | .arr _ => true
  | _ => false

mutual

/-- JavaScript `String(v)` coercion, as used for template-literal
interpolation and for property keys. -/
def jsToString : Json → String
  | .undefined => "undefined"
  | .null => "null"
  | .bool true => "true"
  | .bool false => "false"
  | .num n => toString n
  | .str s => s
  | .arr xs => jsArrToString xs
  | .obj _ => "[object Object]"

/-- `Array.prototype.toString`: elements joined by commas, with `null` and
`undefined` elements rendered as the empty string. -/
def jsArrToString : List Json → String
  | [] => ""
  | [x] => jsItemToString x
  | x :: xs => jsItemToString x ++ "," ++ jsArrToString xs

/-- How one array element is rendered inside `Array.prototype.toString`. -/
def jsItemToString : Json → String
  | .undefined => ""
  | .null => ""
  | j => jsToString j

end

/-- JavaScript strict equality of a value against a string literal
(`v === 'high'`): true exactly for that string. -/
def Json.strictEqString : Json → String → Bool
  | .str t, s => t == s
  | _, _ => false

/-- An HTTP response: status code and JSON body, as produced by
`res.status(...).json(...)` / `res.json(...)` (the latter defaults to 200). -/
structure HttpResponse where
  status : Nat
  body : Json

/-- The `processingTimes` table of the `/generate` handler. -/
def processingTimes : List (String × Int) :=
  [("low", 500), ("medium", 1500), ("high", 3000), ("very_high", 5000)]

/-- `processingTimes[complexity] || 1500`: property access converts the key
to a string; a miss gives `undefined`, which is falsy, so the default 1500
applies (every table entry is a truthy number). -/
def lookupProcessingTime (complexity : Json) : Int :=
  (processingTimes.lookup (jsToString complexity)).getD 1500

/-- `messages[messages.length - 1]?.content || 'your query'`: the `content`
property of the last message if that is truthy, else the fallback text.
Optional chaining short-circuits on `undefined`/`null`; an out-of-range
index on an array (or a non-array base in this model) gives `undefined`. -/
def lastContent (messages : Json) : String :=
  let last : Json :=
    match messages with
    | .arr xs => xs.getLast?.getD .undefined
    | _ => .undefined
  let c : Json :=
    match last with
    | .undefined => .undefined
    | .null => .undefined
    | j => j.prop "content"
  if c.truthy then jsToString c else "your query"

/-- The destructuring `forceFresh = false` of the handler: the default
applies exactly when the property's value is `undefined` (in particular
when the field is absent). -/
def effectiveForceFresh (body : Json) : Json :=
  match body.prop "forceFresh" with
  | .undefined => .bool false
  | v => v

/-- The `POST /generate` handler.  `duration` abstracts the measured wall
clock time `Date.now() - startTime` that the handler reports as
`processingTime`.  The handler destructures `userId`, `messages`,
`complexity` and `forceFresh` (defaulting to `false`) from the body,
returns 400 when `userId` is falsy or `messages` is falsy or not an
array, and otherwise answers with the simulated response object. -/
def generate (body : Json) (duration : Int) : HttpResponse :=
  let userId := body.prop "userId"
  let messages := body.prop "messages"
  let complexity := body.prop "complexity"
  let forceFresh : Json := effectiveForceFresh body
  if !userId.truthy || !messages.truthy || !messages.isArray then
    { status := 400
      body := .obj [("error", .str "Invalid request. Required fields: userId, messages (array)")] }
  else
    { status := 200
      body := .obj
        [ ("response", .str ("This is a test response to: \"" ++ lastContent messages ++ "\""))
        , ("metadata", .obj
            [ ("complexity", complexity)
            , ("processingTime", .num duration)
            , ("modelUsed", .str (if complexity.strictEqString "high" then "gpt-4o" else "gpt-3.5-turbo"))
            , ("cached", .bool (!forceFresh.truthy)) ]) ] }

/-- Truthiness of an environment variable (`!!process.env.X`): set and
non-empty. -/
def envTruthy : Option String → Bool
  | none => false
  | some s => s != ""

/-- The `GET /health` handler.  `timestamp` and `uptime` abstract
`new Date().toISOString()` and `process.uptime()`. -/
def health (openaiKey geminiKey : Option String) (timestamp : String) (uptime : Int) : HttpResponse :=
  let openaiAvailable := envTruthy openaiKey
  let geminiAvailable := envTruthy geminiKey
  let status : Nat := if openaiAvailable || geminiAvailable then 200 else 503
  { status := status
    body := .obj
      [ ("status", .str (if status == 200 then "healthy" else "degraded"))
      , ("timestamp", .str timestamp)
      , ("services", .obj
          [ ("openai", .str (if openaiAvailable then "available" else "unavailable"))
          , ("gemini", .str (if geminiAvailable then "available" else "unavailable")) ])
      , ("uptime", .num uptime) ] }

/-- The `GET /stats` handler: hardcoded simulated statistics.  `createdAt`
and `lastCleanup` abstract the two `new Date()` values. -/
def stats (createdAt lastCleanup : String) : HttpResponse :=
  { status := 200
    body := .obj
      [ ("activePrompts", .num 0)
      , ("queueSizes", .obj
          [ ("critical", .num 0), ("high", .num 0), ("normal", .num 0), ("low", .num 0) ])
      , ("isProcessingBatch", .bool false)
      , ("cache", .obj
          [ ("hits", .num 25), ("misses", .num 10), ("size", .num 35)
          , ("diskSize", .num 15), ("fingerprintHits", .num 5)
          , ("createdAt", .str createdAt), ("lastCleanup", .str lastCleanup) ]) ] }

/-- One inbound HTTP request to the service, with the ambient data each
handler reads (measured duration, environment keys, clock values) attached
to the request that uses it. -/
inductive Request where
  | genReq (body : Json) (duration : Int)
  | healthReq (openaiKey geminiKey : Option String) (timestamp : String) (uptime : Int)
  | statsReq (createdAt lastCleanup : String)

/-- Dispatch of one request to its handler. -/
def handleRequest : Request → HttpResponse
  | .genReq b d => generate b d
  | .healthReq ok gk t u => health ok gk t u
  | .statsReq c l => stats c l

/-- A run of the service on a sequence of requests.  No handler reads any
mutable state (the only side effects in the source are log writes), so a
run is the pointwise image of the request list. -/
def runService (reqs : List Request) : List HttpResponse :=
  reqs.map handleRequest

/-- Priority tiers of the batch queue. -/
inductive Tier where
  | critical
  | high
  | normal
  | low
deriving DecidableEq

/-- An item awaiting a batch flush: an identifier standing for the request
and its priority tier. -/
structure QueueItem where
  id : Nat
  tier : Tier
deriving DecidableEq

/-- Modelled from the spec: the Batch/Priority Queue of the adaptive AI
service is not among these sources (only a launcher and a test client for
it are); the spec describes per-tier ordered sequences for the
non-critical tiers, FIFO within each tier. -/
structure BatchQueue where
  high : List QueueItem
  normal : List QueueItem
  low : List QueueItem

/-- The empty batch queue. -/
def BatchQueue.empty : BatchQueue :=
  { high := [], normal := [], low := [] }

/-- Modelled from the spec: `enqueue` appends a non-critical item to its
tier's sequence (FIFO within tier) and reports it queued; a critical item
bypasses the queue entirely and is reported not queued. -/
def enqueue (q : BatchQueue) (it : QueueItem) : BatchQueue × Bool :=
  match it.tier with
  | .critical => (q, false)
  | .high => ({ q with high := q.high ++ [it] }, true)
  | .normal => ({ q with normal := q.normal ++ [it] }, true)
  | .low => ({ q with low := q.low ++ [it] }, true)

/-- Enqueue a list of items in order, keeping the final queue. -/
def enqueueAll (q : BatchQueue) (items : List QueueItem) : BatchQueue :=
  items.foldl (fun q it => (enqueue q it).1) q

/-- Modelled from the spec: a flush tick drains the queues strictly in tier
priority order — `high` fully drained before `normal`, `normal` before
`low` — up to a per-tick batch size limit.  Returns the serviced items in
service order together with the remaining queue. -/
def flush (q : BatchQueue) (limit : Nat) : List QueueItem × BatchQueue :=
  let servicedHigh := q.high.take limit
  let limitAfterHigh := limit - servicedHigh.length
  let servicedNormal := q.normal.take limitAfterHigh
  let limitAfterNormal := limitAfterHigh - servicedNormal.length
  let servicedLow := q.low.take limitAfterNormal
  (servicedHigh ++ servicedNormal ++ servicedLow,
   { high := q.high.drop limit
     normal := q.normal.drop limitAfterHigh
     low := q.low.drop limitAfterNormal })

/-! Theorems. -/

/-- Shape of a successful `/generate` answer: when `userId` is truthy and
`messages` is an array, the validation branch is skipped and the handler
returns status 200 with the simulated response object. -/
theorem generate_ok (body : Json) (d : Int)
    (hu : (body.prop "userId").truthy = true)
    (ha : (body.prop "messages").isArray = true) :
    generate body d =
      { status := 200
        body := .obj
          [ ("response", .str ("This is a test response to: \"" ++ lastContent (body.prop "messages") ++ "\""))
          , ("metadata", .obj
              [ ("complexity", body.prop "complexity")
              , ("processingTime", .num d)
              , ("modelUsed", .str (if (body.prop "complexity").strictEqString "high" then "gpt-4o" else "gpt-3.5-turbo"))
              , ("cached", .bool (!(effectiveForceFresh body).truthy)) ]) ] } := by
  rcases hmsg : body.prop "messages" with _ | _ | b | n | s | xs | fs <;>
    rw [hmsg] at ha <;> simp [Json.isArray] at ha
  simp only [generate, hmsg, hu]
  simp [Json.truthy, Json.isArray]

/-- C1 (amended): the 400 validation branch is taken exactly when `userId`
is falsy or `messages` is not an array; whenever it is not taken, the
response object contains `response` and a `metadata` object with the
fields `complexity`, `processingTime`, `modelUsed` and `cached`. -/
theorem generate_400_iff_and_success_fields (body : Json) (d : Int) :
    ((generate body d).status = 400 ↔
      ((body.prop "userId").truthy = false ∨ (body.prop "messages").isArray = false)) ∧
    ((generate body d).status = 400 ∨
      (((generate body d).body.getField "response").isSome = true ∧
       ((generate body d).body.getField "metadata").isSome = true ∧
       (((generate body d).body.prop "metadata").getField "complexity").isSome = true ∧
       (((generate body d).body.prop "metadata").getField "processingTime").isSome = true ∧
       (((generate body d).body.prop "metadata").getField "modelUsed").isSome = true ∧
       (((generate body d).body.prop "metadata").getField "cached").isSome = true)) := by
  cases hu : (body.prop "userId").truthy <;>
    rcases hmsg : body.prop "messages" with _ | _ | b | n | s | xs | fs <;>
      simp only [generate, hu, hmsg] <;>
      simp [Json.truthy, Json.isArray, Json.prop, Json.getField, List.lookup]

/-- C1 counterexample: the body `{userId: 0, messages: []}` contains both a
`userId` field and a `messages` field holding an array, yet the handler
takes the 400 validation branch, because validation tests truthiness
rather than presence. -/
theorem generate_400_despite_fields_present :
    ((Json.obj [("userId", .num 0), ("messages", .arr [])]).getField "userId").isSome = true ∧
    (Json.obj [("userId", .num 0), ("messages", .arr [])]).getField "messages" = some (.arr []) ∧
    (generate (.obj [("userId", .num 0), ("messages", .arr [])]) 0).status = 400 :=
  ⟨rfl, rfl, rfl⟩

/-- C2: `/health` reports `degraded` exactly when neither provider key is
available and `healthy` when at least one is, and the `services` object
reports each provider's availability. -/
theorem health_status_and_services (openaiKey geminiKey : Option String) (t : String) (u : Int) :
    ((health openaiKey geminiKey t u).body.getField "status" = some (.str "degraded") ↔
      (envTruthy openaiKey = false ∧ envTruthy geminiKey = false)) ∧
    ((health openaiKey geminiKey t u).body.getField "status" = some (.str "healthy") ↔
      (envTruthy openaiKey = true ∨ envTruthy geminiKey = true)) ∧
    (((health openaiKey geminiKey t u).body.prop "services").getField "openai" =
      some (.str (if envTruthy openaiKey then "available" else "unavailable"))) ∧
    (((health openaiKey geminiKey t u).body.prop "services").getField "gemini" =
      some (.str (if envTruthy geminiKey then "available" else "unavailable"))) := by
  cases h1 : envTruthy openaiKey <;> cases h2 : envTruthy geminiKey <;>
    simp only [health, h1, h2] <;>
    simp [Json.prop, Json.getField, List.lookup]

/-- C8: a body whose `userId` field is present but falsy is rejected with
status 400, because validation tests truthiness rather than presence. -/
theorem generate_400_on_falsy_userId (body : Json) (d : Int)
    (hpresent : (body.getField "userId").isSome = true)
    (hfalsy : (body.prop "userId").truthy = false) :
    (generate body d).status = 400 := by
  simp only [generate, hfalsy]
  simp

/-- Witness for C8 at the concrete body `{userId: 0, messages: []}`. -/
theorem generate_400_on_falsy_userId_witness :
    ((Json.obj [("userId", .num 0), ("messages", .arr [])]).getField "userId").isSome = true ∧
    ((Json.obj [("userId", .num 0), ("messages", .arr [])]).prop "userId").truthy = false ∧
    (generate (.obj [("userId", .num 0), ("messages", .arr [])]) 7).status = 400 :=
  ⟨rfl, rfl, generate_400_on_falsy_userId (.obj [("userId", .num 0), ("messages", .arr [])]) 7 rfl rfl⟩

/-- C3 counterexample: a request with complexity `very_high` is answered
with `modelUsed` equal to `gpt-3.5-turbo` — the same cheap model as the
`low` tier and not the most capable model, which the handler reserves for
the `high` tier alone. -/
theorem generate_very_high_gets_cheap_model :
    (((generate (.obj [("userId", .str "u1"),
        ("messages", .arr [.obj [("role", .str "user"), ("content", .str "q")]]),
        ("complexity", .str "very_high")]) 0).body.prop "metadata").getField "modelUsed" =
      some (.str "gpt-3.5-turbo")) ∧
    (((generate (.obj [("userId", .str "u1"), ("messages", .arr []),
        ("complexity", .str "low")]) 0).body.prop "metadata").getField "modelUsed" =
      some (.str "gpt-3.5-turbo")) ∧
    (((generate (.obj [("userId", .str "u1"), ("messages", .arr []),
        ("complexity", .str "high")]) 0).body.prop "metadata").getField "modelUsed" =
      some (.str "gpt-4o")) ∧
    ("gpt-3.5-turbo" : String) ≠ "gpt-4o" :=
  ⟨rfl, rfl, rfl, by decide⟩

/-- C3 (amended): for every valid request, `modelUsed` is `gpt-4o` exactly
when the request's `complexity` is the string `high` and `gpt-3.5-turbo`
otherwise (in particular for both `low` and `very_high`), and the
request's `complexity` value is echoed back in `metadata.complexity`. -/
theorem generate_modelUsed_by_complexity (body : Json) (d : Int)
    (hu : (body.prop "userId").truthy = true)
    (ha : (body.prop "messages").isArray = true) :
    (((generate body d).body.prop "metadata").getField "modelUsed" =
      some (.str (if (body.prop "complexity").strictEqString "high" then "gpt-4o" else "gpt-3.5-turbo"))) ∧
    (((generate body d).body.prop "metadata").getField "complexity" =
      some (body.prop "complexity")) := by
  rw [generate_ok body d hu ha]
  simp [Json.prop, Json.getField, List.lookup]

/-- Witness for the amended C3 at a concrete `very_high` request. -/
theorem generate_modelUsed_by_complexity_witness :
    (((generate (.obj [("userId", .str "u2"), ("messages", .arr []),
        ("complexity", .str "very_high")]) 3).body.prop "metadata").getField "modelUsed" =
      some (.str "gpt-3.5-turbo")) ∧
    (((generate (.obj [("userId", .str "u2"), ("messages", .arr []),
        ("complexity", .str "very_high")]) 3).body.prop "metadata").getField "complexity" =
      some (.str "very_high")) :=
  generate_modelUsed_by_complexity
    (.obj [("userId", .str "u2"), ("messages", .arr []), ("complexity", .str "very_high")]) 3 rfl rfl

/-- C9: in every successful answer, `metadata.cached` is the negation of
the request's effective `forceFresh` flag, and the answer to a request is
the same pure function of that request after any preceding traffic (the
handler consults no cache and keeps no state). -/
theorem generate_cached_is_not_forceFresh (body : Json) (d : Int) (b : Bool)
    (hu : (body.prop "userId").truthy = true)
    (ha : (body.prop "messages").isArray = true)
    (hf : effectiveForceFresh body = .bool b)
    (traffic : List Request) :
    (((generate body d).body.prop "metadata").getField "cached" = some (.bool (!b))) ∧
    ((runService (traffic ++ [.genReq body d])).getLast? = some (generate body d)) := by
  constructor
  · rw [generate_ok body d hu ha, hf]
    simp [Json.prop, Json.getField, List.lookup, Json.truthy]
  · simp [runService, handleRequest]

/-- Witness for C9: the first-ever request (empty preceding traffic) with
`forceFresh: false` is already reported with `cached: true`. -/
theorem generate_cached_is_not_forceFresh_witness :
    (((generate (.obj [("userId", .str "u3"), ("messages", .arr []),
        ("forceFresh", .bool false)]) 5).body.prop "metadata").getField "cached" =
      some (.bool true)) ∧
    ((runService ([] ++ [.genReq (.obj [("userId", .str "u3"), ("messages", .arr []),
        ("forceFresh", .bool false)]) 5])).getLast? =
      some (generate (.obj [("userId", .str "u3"), ("messages", .arr []),
        ("forceFresh", .bool false)]) 5)) :=
  generate_cached_is_not_forceFresh
    (.obj [("userId", .str "u3"), ("messages", .arr []), ("forceFresh", .bool false)]) 5 false
    rfl rfl rfl []

/-- C5: of two sequential identical valid requests with `forceFresh:
false`, the second is answered with `metadata.cached = true` (as indeed is
every request with `forceFresh: false`). -/
theorem second_identical_request_cached (body : Json) (d1 d2 : Int)
    (hu : (body.prop "userId").truthy = true)
    (ha : (body.prop "messages").isArray = true)
    (hf : body.prop "forceFresh" = .bool false) :
    ((runService [.genReq body d1, .genReq body d2])[1]? = some (generate body d2)) ∧
    (((generate body d2).body.prop "metadata").getField "cached" = some (.bool true)) := by
  have hff : effectiveForceFresh body = .bool false := by
    simp [effectiveForceFresh, hf]
  constructor
  · rfl
  · rw [generate_ok body d2 hu ha, hff]
    simp [Json.prop, Json.getField, List.lookup, Json.truthy]

/-- Witness for C5: a concrete identical pair of requests. -/
theorem second_identical_request_cached_witness :
    ((runService [.genReq (.obj [("userId", .str "u4"), ("messages", .arr []),
        ("forceFresh", .bool false)]) 9,
      .genReq (.obj [("userId", .str "u4"), ("messages", .arr []),
        ("forceFresh", .bool false)]) 2])[1]? =
      some (generate (.obj [("userId", .str "u4"), ("messages", .arr []),
        ("forceFresh", .bool false)]) 2)) ∧
    (((generate (.obj [("userId", .str "u4"), ("messages", .arr []),
        ("forceFresh", .bool false)]) 2).body.prop "metadata").getField "cached" =
      some (.bool true)) :=
  second_identical_request_cached
    (.obj [("userId", .str "u4"), ("messages", .arr []), ("forceFresh", .bool false)]) 9 2
    rfl rfl rfl

/-- C7: the reported complexity is a pure, deterministic function of the
request: two valid requests with identical `messages` and identical
`complexity` fields receive the identical `metadata.complexity`, whatever
their other fields, their measured durations, or any prior traffic. -/
theorem reported_complexity_deterministic (b1 b2 : Json) (d1 d2 : Int)
    (hu1 : (b1.prop "userId").truthy = true)
    (hu2 : (b2.prop "userId").truthy = true)
    (ha1 : (b1.prop "messages").isArray = true)
    (ha2 : (b2.prop "messages").isArray = true)
    (hm : b1.prop "messages" = b2.prop "messages")
    (hc : b1.prop "complexity" = b2.prop "complexity") :
    ((generate b1 d1).body.prop "metadata").getField "complexity" =
      ((generate b2 d2).body.prop "metadata").getField "complexity" := by
  rw [generate_ok b1 d1 hu1 ha1, generate_ok b2 d2 hu2 ha2, hm, hc]
  simp [Json.prop, Json.getField, List.lookup]

/-- Witness for C7: two requests sharing messages and complexity but
differing in user and duration. -/
theorem reported_complexity_deterministic_witness :
    ((generate (.obj [("userId", .str "a"), ("messages", .arr []),
        ("complexity", .str "medium")]) 1).body.prop "metadata").getField "complexity" =
      ((generate (.obj [("userId", .str "zz"), ("messages", .arr []),
        ("complexity", .str "medium")]) 99).body.prop "metadata").getField "complexity" :=
  reported_complexity_deterministic
    (.obj [("userId", .str "a"), ("messages", .arr []), ("complexity", .str "medium")])
    (.obj [("userId", .str "zz"), ("messages", .arr []), ("complexity", .str "medium")])
    1 99 rfl rfl rfl rfl rfl rfl

/-- C6: for a critical-priority request after any traffic, the statistics
endpoint reports the critical queue size as 0 (its answer is the same
after every traffic), and the `/generate` answer carries no `queued`
field at all — so it is never a queued acknowledgment. -/
theorem critical_never_observed_queued (body : Json) (d : Int) (c l : String)
    (traffic : List Request)
    (hp : body.prop "priority" = .str "critical") :
    (((stats c l).body.prop "queueSizes").getField "critical" = some (.num 0)) ∧
    ((runService (traffic ++ [.statsReq c l])).getLast? = some (stats c l)) ∧
    ((generate body d).body.getField "queued" = none) := by
  refine ⟨rfl, by simp [runService, handleRequest], ?_⟩
  simp only [generate]
  split <;> rfl

/-- Witness for C6 at a concrete critical request. -/
theorem critical_never_observed_queued_witness :
    (((stats "t1" "t2").body.prop "queueSizes").getField "critical" = some (.num 0)) ∧
    ((runService ([] ++ [.statsReq "t1" "t2"])).getLast? = some (stats "t1" "t2")) ∧
    ((generate (.obj [("userId", .str "u5"), ("messages", .arr []),
        ("priority", .str "critical")]) 0).body.getField "queued" = none) :=
  critical_never_observed_queued
    (.obj [("userId", .str "u5"), ("messages", .arr []), ("priority", .str "critical")])
    0 "t1" "t2" [] rfl

/-- C10: the statistics answer after any preceding traffic is the fixed
simulated record: queue sizes all 0, cache hits 25, misses 10, size 35,
activePrompts 0 and isProcessingBatch false. -/
theorem stats_constant_counters (traffic : List Request) (c l : String) :
    ((runService (traffic ++ [.statsReq c l])).getLast? = some (stats c l)) ∧
    ((stats c l).body.getField "activePrompts" = some (.num 0)) ∧
    ((stats c l).body.prop "queueSizes" =
      .obj [("critical", .num 0), ("high", .num 0), ("normal", .num 0), ("low", .num 0)]) ∧
    ((stats c l).body.getField "isProcessingBatch" = some (.bool false)) ∧
    (((stats c l).body.prop "cache").getField "hits" = some (.num 25)) ∧
    (((stats c l).body.prop "cache").getField "misses" = some (.num 10)) ∧
    (((stats c l).body.prop "cache").getField "size" = some (.num 35)) :=
  ⟨by simp [runService, handleRequest], rfl, rfl, rfl, rfl, rfl, rfl⟩

/-- A flush whose batch limit covers everything queued services the tiers
completely, high before normal before low. -/
theorem flush_all_of_fits (q : BatchQueue) (limit : Nat)
    (h : q.high.length + q.normal.length + q.low.length ≤ limit) :
    (flush q limit).1 = q.high ++ q.normal ++ q.low := by
  simp only [flush]
  rw [List.take_of_length_le (by omega)]
  rw [List.take_of_length_le (by omega)]
  rw [List.take_of_length_le (by omega)]

/-- C4: items enqueued with tiers `[low, high, normal, high]` in that
order are serviced by the flush as `[high, high, normal, low]` — strictly
by tier priority, FIFO within a tier — for any batch limit covering the
four items. -/
theorem flush_services_by_priority (limit : Nat) (h : 4 ≤ limit) :
    ((flush (enqueueAll BatchQueue.empty
        [⟨0, .low⟩, ⟨1, .high⟩, ⟨2, .normal⟩, ⟨3, .high⟩]) limit).1.map QueueItem.tier =
      [.high, .high, .normal, .low]) ∧
    ((flush (enqueueAll BatchQueue.empty
        [⟨0, .low⟩, ⟨1, .high⟩, ⟨2, .normal⟩, ⟨3, .high⟩]) limit).1.map QueueItem.id =
      [1, 3, 2, 0]) := by
  have hq : enqueueAll BatchQueue.empty [⟨0, .low⟩, ⟨1, .high⟩, ⟨2, .normal⟩, ⟨3, .high⟩] =
      { high := [⟨1, .high⟩, ⟨3, .high⟩], normal := [⟨2, .normal⟩], low := [⟨0, .low⟩] } := rfl
  rw [hq, flush_all_of_fits _ _ (by simpa using h)]
  exact ⟨rfl, rfl⟩

/-- Witness for C4 with batch limit 10. -/
theorem flush_services_by_priority_witness :
    ((flush (enqueueAll BatchQueue.empty
        [⟨0, .low⟩, ⟨1, .high⟩, ⟨2, .normal⟩, ⟨3, .high⟩]) 10).1.map QueueItem.tier =
      [.high, .high, .normal, .low]) ∧
    ((flush (enqueueAll BatchQueue.empty
        [⟨0, .low⟩, ⟨1, .high⟩, ⟨2, .normal⟩, ⟨3, .high⟩]) 10).1.map QueueItem.id =
      [1, 3, 2, 0]) :=
  flush_services_by_priority 10 (by decide)

/-- Witness for the amended C1 at a concrete valid body. -/
theorem generate_400_iff_and_success_fields_witness :
    ((generate (.obj [("userId", .str "w"), ("messages", .arr [])]) 0).status = 400 ↔
      (((Json.obj [("userId", .str "w"), ("messages", .arr [])]).prop "userId").truthy = false ∨
       ((Json.obj [("userId", .str "w"), ("messages", .arr [])]).prop "messages").isArray = false)) ∧
    ((generate (.obj [("userId", .str "w"), ("messages", .arr [])]) 0).status = 400 ∨
      (((generate (.obj [("userId", .str "w"), ("messages", .arr [])]) 0).body.getField "response").isSome = true ∧
       ((generate (.obj [("userId", .str "w"), ("messages", .arr [])]) 0).body.getField "metadata").isSome = true ∧
       (((generate (.obj [("userId", .str "w"), ("messages", .arr [])]) 0).body.prop "metadata").getField "complexity").isSome = true ∧
       (((generate (.obj [("userId", .str "w"), ("messages", .arr [])]) 0).body.prop "metadata").getField "processingTime").isSome = true ∧
       (((generate (.obj [("userId", .str "w"), ("messages", .arr [])]) 0).body.prop "metadata").getField "modelUsed").isSome = true ∧
       (((generate (.obj [("userId", .str "w"), ("messages", .arr [])]) 0).body.prop "metadata").getField "cached").isSome = true)) :=
  generate_400_iff_and_success_fields (.obj [("userId", .str "w"), ("messages", .arr [])]) 0

/-- Witness for C2 with only the OpenAI key set. -/
theorem health_status_and_services_witness :
    ((health (some "k") none "ts" 0).body.getField "status" = some (.str "degraded") ↔
      (envTruthy (some "k") = false ∧ envTruthy none = false)) ∧
    ((health (some "k") none "ts" 0).body.getField "status" = some (.str "healthy") ↔
      (envTruthy (some "k") = true ∨ envTruthy (none : Option String) = true)) ∧
    (((health (some "k") none "ts" 0).body.prop "services").getField "openai" =
      some (.str (if envTruthy (some "k") then "available" else "unavailable"))) ∧
    (((health (some "k") none "ts" 0).body.prop "services").getField "gemini" =
      some (.str (if envTruthy (none : Option String) then "available" else "unavailable"))) :=
  health_status_and_services (some "k") none "ts" 0

/-- Witness for C10 after empty traffic. -/
theorem stats_constant_counters_witness :
    ((runService ([] ++ [.statsReq "a" "b"])).getLast? = some (stats "a" "b")) ∧
    ((stats "a" "b").body.getField "activePrompts" = some (.num 0)) ∧
    ((stats "a" "b").body.prop "queueSizes" =
      .obj [("critical", .num 0), ("high", .num 0), ("normal", .num 0), ("low", .num 0)]) ∧
    ((stats "a" "b").body.getField "isProcessingBatch" = some (.bool false)) ∧
    (((stats "a" "b").body.prop "cache").getField "hits" = some (.num 25)) ∧
    (((stats "a" "b").body.prop "cache").getField "misses" = some (.num 10)) ∧
    (((stats "a" "b").body.prop "cache").getField "size" = some (.num 35)) :=
  stats_constant_counters [] "a" "b"
